import Mathlib

/-!
Verification of the Confidential Clean Room workflow orchestration core.

This file gives a shallow embedding of the backend's workflow controller
(`workflow.controller.ts`), storage controller (`storage.controller.ts`) and
the BigQuery metadata service (`bigquery.service.ts`), and proves the stated
properties of the workflow lifecycle, approval gate, dataset/key join and
execution dispatch.

Modelling conventions:
- The per-owner BigQuery tables are modelled as a single list per entity type,
  each row tagged with the owner identity whose table it lives in
  (`getTableId(owner, suffix)` in the source).
- Timestamps (`CURRENT_TIMESTAMP()`, `new Date().toISOString()`) are `Nat`
  values supplied by the caller of each operation.
- `ORDER BY ... DESC` is modelled by an insertion sort on the relevant key.
- The executor HTTP call is an oracle function `ExecuteRequest → ExecutorOutcome`;
  the requests actually dispatched are recorded in a trace so that claims about
  the payload and about the absence of retries are statements of the model.
- `uuidv4()` is an id stream `Nat → String`.
- Metadata-store reads and writes are deterministic (no transport failure),
  except in `isWorkflowApproved` where the source's `catch` branch is modelled
  by an explicit `queryFails` flag (the fail-closed approval read).
-/

namespace CleanRoom

/-! ### Descending insertion sort, modelling `ORDER BY key DESC` -/

def insertDescBy (key : α → Nat) (a : α) : List α → List α
  | [] => [a]
  | b :: bs => if key b < key a then a :: b :: bs else b :: insertDescBy key a bs

def sortDescBy (key : α → Nat) : List α → List α
  | [] => []
  | a :: as => insertDescBy key a (sortDescBy key as)

theorem mem_insertDescBy (key : α → Nat) (a x : α) (l : List α) :
    x ∈ insertDescBy key a l ↔ x = a ∨ x ∈ l := by
  induction l with
  | nil => simp [insertDescBy]
  | cons b bs ih =>
    by_cases h : key b < key a
    · simp [insertDescBy, h]
    · simp [insertDescBy, h, ih]
      tauto

theorem mem_sortDescBy (key : α → Nat) (x : α) (l : List α) :
    x ∈ sortDescBy key l ↔ x ∈ l := by
  induction l with
  | nil => simp [sortDescBy]
  | cons a as ih => simp [sortDescBy, mem_insertDescBy, ih]

theorem pairwise_insertDescBy (key : α → Nat) (a : α) (l : List α)
    (h : l.Pairwise (fun x y => key y ≤ key x)) :
    (insertDescBy key a l).Pairwise (fun x y => key y ≤ key x) := by
  induction l with
  | nil => simp [insertDescBy]
  | cons b bs ih =>
    rw [List.pairwise_cons] at h
    obtain ⟨hb, hbs⟩ := h
    by_cases hk : key b < key a
    · rw [insertDescBy, if_pos hk, List.pairwise_cons]
      refine ⟨?_, ?_⟩
      · intro y hy
        rcases List.mem_cons.mp hy with hy | hy
        · subst hy; omega
        · have := hb y hy; omega
      · rw [List.pairwise_cons]; exact ⟨hb, hbs⟩
    · rw [insertDescBy, if_neg hk, List.pairwise_cons]
      refine ⟨?_, ih hbs⟩
      intro y hy
      rcases (mem_insertDescBy key a y bs).mp hy with hy | hy
      · subst hy; omega
      · exact hb y hy

theorem pairwise_sortDescBy (key : α → Nat) (l : List α) :
    (sortDescBy key l).Pairwise (fun x y => key y ≤ key x) := by
  induction l with
  | nil => simp [sortDescBy]
  | cons a as ih => exact pairwise_insertDescBy key a _ ih

theorem sortDescBy_eq_nil_iff (key : α → Nat) (l : List α) :
    sortDescBy key l = [] ↔ l = [] := by
  cases l with
  | nil => simp [sortDescBy]
  | cons a as =>
    simp only [sortDescBy]
    constructor
    · intro h
      have : a ∈ insertDescBy key a (sortDescBy key as) :=
        (mem_insertDescBy key a a _).mpr (Or.inl rfl)
      rw [h] at this
      cases this
    · intro h; cases h

/-! ### Data model (`types.ts`) -/

inductive WorkflowStatus where
  | PENDING_APPROVAL
  | APPROVED
  | REJECTED
  | RUNNING
  | COMPLETED
  | FAILED
deriving DecidableEq, Repr

structure Workflow where
  workflow_id : String
  creator : String
  collaborators : List String
  workload_path : String
  status : WorkflowStatus
  created_at : Nat
  updated_at : Option Nat
deriving DecidableEq, Repr

structure WorkflowApproval where
  workflow_id : String
  approver : String
  approved : Bool
  approved_at : Nat
deriving DecidableEq, Repr

structure Dataset where
  dataset_id : String
  workflow_id : String
  owner : String
  filename : String
  gcs_path : String
  created_at : Nat
deriving DecidableEq, Repr

structure WrappedKey where
  key_id : String
  dataset_id : String
  workflow_id : String
  owner : String
  gcs_path : String
  created_at : Nat
deriving DecidableEq, Repr

structure ExecutionResult where
  id : String
  workflow_id : String
  executed_notebook_path : String
  result_path : String
  created_at : Nat
deriving DecidableEq, Repr

structure DatasetSpec where
  owner : String
  ciphertext_gcs : String
  wrapped_dek_gcs : String
deriving DecidableEq, Repr

structure ExecuteRequest where
  workflow_id : String
  workload_gcs : String
  datasets : List DatasetSpec
  result_base : String
  executed_notebook_base : String
deriving DecidableEq, Repr

/-- Outcome of the single executor HTTP call: a 2xx response carrying
`result_paths` and `executed_notebook_path`, or any failure (non-2xx,
network error, or the 600000 ms axios timeout), carrying the error message. -/
inductive ExecutorOutcome where
  | success (result_paths : List String) (executed_notebook_path : String)
  | failure (message : String)
deriving DecidableEq, Repr

/-- Source `config.ts` `config.workload.fixedPath`: the deployment-fixed
workload artifact reference, `FIXED_WORKLOAD_PATH` falling back to its
in-code default (the embedding takes the defaults, i.e. no environment
overrides). -/
def fixedWorkloadPath : String :=
  "gs://yellowsense-technologies-cleanroom/workloads/fraud-detector.ipynb"

/-- Source `config.ts` `config.gcp.bucket`: the deployment-fixed GCS bucket
name, `GCP_BUCKET` falling back to its in-code default. -/
def gcpBucket : String := "yellowsense-technologies-cleanroom"

/-- Source `config.ts` `config.results.pathPrefix`: the fixed path segment
under which a run's outputs live, `RESULTS_PATH_PREFIX` falling back to its
in-code default `results` (which is also the literal `runWorkflow` hard-codes
in its output bases). -/
def resultsDir : String := "results"

/-! ### The metadata store

One list per entity type; each Workflow/Approval/Dataset/WrappedKey row is
tagged with the owner whose per-owner table holds it, and ExecutionResult
rows live in the single shared results table. Inserts append. -/

structure Store where
  workflows : List (String × Workflow)
  approvals : List (String × WorkflowApproval)
  datasets : List (String × Dataset)
  keys : List (String × WrappedKey)
  results : List ExecutionResult
deriving DecidableEq, Repr

def emptyStore : Store := ⟨[], [], [], [], []⟩

namespace BigQueryService

/-- Source `bigquery.service.ts` `createWorkflow`: insert one row into the creator's
workflows table (the inserted row carries no `updated_at`). -/
def createWorkflow (s : Store) (w : Workflow) : Store :=
  { s with workflows := s.workflows ++ [(w.creator, { w with updated_at := none })] }

/-- Source `bigquery.service.ts` `getWorkflow`: `SELECT *` from the creator's
workflows table `WHERE workflow_id = @workflow_id`, take `rows[0]`. -/
def getWorkflow (s : Store) (workflowId creator : String) : Option Workflow :=
  (((s.workflows.filter (fun p => p.1 == creator && p.2.workflow_id == workflowId)).map
    (fun p => p.2)).head?)

/-- The row transformer of the `UPDATE ... SET status = @status,
updated_at = CURRENT_TIMESTAMP() WHERE workflow_id = @workflow_id` statement,
applied to every row of the creator's workflows table. -/
def updateRow (workflowId creator : String) (status : WorkflowStatus) (now : Nat)
    (p : String × Workflow) : String × Workflow :=
  if p.1 == creator && p.2.workflow_id == workflowId then
    (p.1, { p.2 with status := status, updated_at := some now })
  else p

/-- Source `bigquery.service.ts` `updateWorkflowStatus`: unconditional `UPDATE` of the
status of every matching row in the creator's workflows table. -/
def updateWorkflowStatus (s : Store) (workflowId creator : String)
    (status : WorkflowStatus) (now : Nat) : Store :=
  { s with workflows := s.workflows.map (updateRow workflowId creator status now) }

/-- Source `bigquery.service.ts` `approveWorkflow`: `INSERT INTO` the client's
approvals table the row `(workflow_id, approver = clientId, approved = true,
approved_at = CURRENT_TIMESTAMP())`. -/
def approveWorkflow (s : Store) (workflowId clientId : String) (now : Nat) : Store :=
  { s with approvals := s.approvals ++
      [(clientId, ⟨workflowId, clientId, true, now⟩)] }

/-- The rows the approval query ranges over: the client's approvals table
filtered by `workflow_id = @workflow_id`. -/
def approvalRows (s : Store) (workflowId clientId : String) : List WorkflowApproval :=
  (s.approvals.filter (fun p => p.1 == clientId && p.2.workflow_id == workflowId)).map
    (fun p => p.2)

/-- The successful-query path of `isWorkflowApproved`: `ORDER BY approved_at
DESC LIMIT 1`; empty result means `false`, otherwise `rows[0].approved`. -/
def isWorkflowApprovedOk (s : Store) (workflowId clientId : String) : Bool :=
  match sortDescBy (fun a => a.approved_at) (approvalRows s workflowId clientId) with
  | [] => false
  | r :: _ => r.approved

/-- Source `bigquery.service.ts` `isWorkflowApproved`, with the `catch` branch made
explicit: a failed store query returns `false` (fail-closed), never an error. -/
def isWorkflowApproved (s : Store) (workflowId clientId : String)
    (queryFails : Bool) : Bool :=
  if queryFails then false else isWorkflowApprovedOk s workflowId clientId

/-- Source `bigquery.service.ts` `getDatasets`: the owner's datasets table filtered by
`workflow_id = @workflow_id AND owner = @owner`, `ORDER BY created_at DESC`;
the service rebuilds each row with `workflow_id` and `owner` taken from the
query parameters. -/
def getDatasets (s : Store) (workflowId owner : String) : List Dataset :=
  (sortDescBy (fun d => d.created_at)
    ((s.datasets.filter (fun p =>
      p.1 == owner && p.2.workflow_id == workflowId && p.2.owner == owner)).map
      (fun p => p.2))).map
    (fun row => { dataset_id := row.dataset_id, workflow_id := workflowId,
                  owner := owner, filename := row.filename,
                  gcs_path := row.gcs_path, created_at := row.created_at })

/-- Source `bigquery.service.ts` `getKeys`: the owner's keys table filtered by
`workflow_id = @workflow_id AND owner = @owner`, `ORDER BY created_at DESC`;
the service rebuilds each row with `key_id := row.dataset_id` and the query
parameters for `workflow_id` and `owner`. -/
def getKeys (s : Store) (workflowId owner : String) : List WrappedKey :=
  (sortDescBy (fun k => k.created_at)
    ((s.keys.filter (fun p =>
      p.1 == owner && p.2.workflow_id == workflowId && p.2.owner == owner)).map
      (fun p => p.2))).map
    (fun row => { key_id := row.dataset_id, dataset_id := row.dataset_id,
                  workflow_id := workflowId, owner := owner,
                  gcs_path := row.gcs_path, created_at := row.created_at })

/-- Source `bigquery.service.ts` `insertResults`: one batch insert of all rows into
the shared results table. -/
def insertResults (s : Store) (rs : List ExecutionResult) : Store :=
  { s with results := s.results ++ rs }

end BigQueryService

/-! ### Workflow controller (`workflow.controller.ts`) -/

/-- Response of the create-workflow endpoint: 200 payload or a 400 error. -/
inductive CreateResult where
  | ok (workflow_id : String) (status : WorkflowStatus)
  | invalidArgument (error : String)
deriving DecidableEq, Repr

def CreateResult.httpStatus : CreateResult → Nat
  | .ok _ _ => 200
  | .invalidArgument _ => 400

/-- Source `workflow.controller.ts` `createWorkflow`: reject when `workflow_id`,
`creator` or `collaborators` is falsy (for the array field only absence is
falsy — an empty list passes), otherwise persist a new workflow at
`PENDING_APPROVAL` with the deployment-fixed workload path. -/
def createWorkflow (s : Store) (workflow_id creator : String)
    (collaborators : Option (List String)) (now : Nat) : CreateResult × Store :=
  if workflow_id == "" || creator == "" || collaborators.isNone then
    (.invalidArgument "Missing required fields: workflow_id, creator, collaborators", s)
  else
    let w : Workflow :=
      { workflow_id := workflow_id, creator := creator,
        collaborators := collaborators.getD [],
        workload_path := fixedWorkloadPath,
        status := .PENDING_APPROVAL, created_at := now, updated_at := none }
    (.ok workflow_id .PENDING_APPROVAL, BigQueryService.createWorkflow s w)

/-- Response of the approve endpoint: 200 payload or a 400 error. -/
inductive ApproveResult where
  | ok (workflow_id : String) (status : String)
  | invalidArgument (error : String)
deriving DecidableEq, Repr

/-- Source `workflow.controller.ts` `approveWorkflow`: reject a falsy `client_id`,
otherwise insert one affirmative approval row and answer with the
`APPROVED_BY_` label. -/
def approveWorkflow (s : Store) (workflow_id client_id : String) (now : Nat) :
    ApproveResult × Store :=
  if client_id == "" then (.invalidArgument "client_id parameter is required", s)
  else (.ok workflow_id ("APPROVED_BY_" ++ client_id),
        BigQueryService.approveWorkflow s workflow_id client_id now)

/-- Response of the run endpoint, one constructor per `res.status(...)` site of
`runWorkflow` (the deterministic-store model never reaches the outer 500). -/
inductive RunResult where
  | invalidArgument (error : String)
  | notApproved (error : String)
  | notFound (error : String)
  | noDatasets (error : String)
  | completed (executed_notebook : String) (result_json_paths : List String)
      (model_gcs_path : Option String)
  | executorFailed (error : String) (message : String)
deriving DecidableEq, Repr

def RunResult.httpStatus : RunResult → Nat
  | .invalidArgument _ => 400
  | .notApproved _ => 403
  | .notFound _ => 404
  | .noDatasets _ => 400
  | .completed _ _ _ => 200
  | .executorFailed _ _ => 502

/-- The approval loop of `runWorkflow`: walk the caller-supplied collaborator
list in order and return the first collaborator whose approval check fails,
or `none` when every check passes. -/
def firstUnapproved (s : Store) (workflowId : String) : List String → Option String
  | [] => none
  | c :: cs =>
      if BigQueryService.isWorkflowApprovedOk s workflowId c then
        firstUnapproved s workflowId cs
      else some c

/-- One owner's contribution to the executor dataset list: that owner's
dataset rows, each matched (by `find` on `dataset_id`) against that same
owner's key rows; a dataset without a key is skipped. -/
def ownerMatches (s : Store) (workflowId owner : String) : List DatasetSpec :=
  (BigQueryService.getDatasets s workflowId owner).filterMap (fun dataset =>
    ((BigQueryService.getKeys s workflowId owner).find?
        (fun k => k.dataset_id == dataset.dataset_id)).map
      (fun key => { owner := owner, ciphertext_gcs := dataset.gcs_path,
                    wrapped_dek_gcs := key.gcs_path }))

/-- The dataset-assembly phase of `runWorkflow`: the creator's matches first,
then a loop over the caller-supplied collaborator list appending each
collaborator's matches, skipping a collaborator equal to the creator. -/
def assembleDatasets (s : Store) (workflowId creator : String)
    (collaborators : List String) : List DatasetSpec :=
  collaborators.foldl
    (fun acc collaborator =>
      if collaborator == creator then acc
      else acc ++ ownerMatches s workflowId collaborator)
    (ownerMatches s workflowId creator)

/-- The `execPayload` object of `runWorkflow`, with its output path bases
derived from the workflow id. -/
def buildExecPayload (workflowId workloadPath : String)
    (datasets : List DatasetSpec) : ExecuteRequest :=
  { workflow_id := workflowId, workload_gcs := workloadPath,
    datasets := datasets,
    result_base := "gs://" ++ gcpBucket ++ "/results/" ++ workflowId ++ "/result",
    executed_notebook_base :=
      "gs://" ++ gcpBucket ++ "/results/" ++ workflowId ++ "/executed" }

/-- Source `storage.service.ts` `getModelPath`: the trained-model artifact path when
the object exists in the bucket, otherwise `null`; `modelExists` stands for
the external object-store existence check. -/
def getModelPath (modelExists : Bool) (workflowId : String) : Option String :=
  if modelExists then
    some ("gs://" ++ gcpBucket ++ "/" ++ resultsDir ++ "/" ++ workflowId
          ++ "/result_model.zip")
  else none

/-- The `results` local of `runWorkflow`'s success path: one ExecutionResult
row per returned result path, each with a fresh id from the `uuid` stream. -/
def mkRunResults (uuid : Nat → String) (workflowId executedPath : String)
    (now : Nat) (resultPaths : List String) : List ExecutionResult :=
  resultPaths.enum.map
    (fun p => { id := uuid p.1, workflow_id := workflowId,
                executed_notebook_path := executedPath,
                result_path := p.2, created_at := now })

/-- The observable outcome of one run request: the HTTP response, the store
after the request, and the trace of requests dispatched to the executor. -/
structure RunOutput where
  res : RunResult
  store : Store
  dispatched : List ExecuteRequest
deriving DecidableEq, Repr

/-- Source `workflow.controller.ts` `runWorkflow` (the branch where `collaborators`
arrives as an array): approval gate over the caller-supplied list, workflow
lookup, unconditional transition to `RUNNING`, dataset/key join across the
creator and the collaborators, single dispatch to the executor, and
reconciliation of the outcome (`COMPLETED` plus a batch result insert on
success, `FAILED` plus a 502 on failure). `exec` is the executor oracle,
`uuid` the id stream for result rows, `modelExists` the object-store check
backing `getModelPath`. -/
def runWorkflow (s : Store) (workflow_id creator : String)
    (collaborators : List String) (exec : ExecuteRequest → ExecutorOutcome)
    (uuid : Nat → String) (modelExists : Bool) (now : Nat) : RunOutput :=
  if creator == "" then
    ⟨.invalidArgument "creator and collaborators parameters are required", s, []⟩
  else
    match firstUnapproved s workflow_id collaborators with
    | some collaborator =>
        ⟨.notApproved ("Workflow not approved by " ++ collaborator), s, []⟩
    | none =>
      match BigQueryService.getWorkflow s workflow_id creator with
      | none => ⟨.notFound "Workflow not found", s, []⟩
      | some workflow =>
        let s1 := BigQueryService.updateWorkflowStatus s workflow_id creator
          .RUNNING now
        let datasets := assembleDatasets s1 workflow_id creator collaborators
        if datasets.length == 0 then
          ⟨.noDatasets "No datasets found for this workflow", s1, []⟩
        else
          let execPayload := buildExecPayload workflow_id workflow.workload_path
            datasets
          match exec execPayload with
          | .failure msg =>
              ⟨.executorFailed "Executor failed" msg,
               BigQueryService.updateWorkflowStatus s1 workflow_id creator
                 .FAILED now,
               [execPayload]⟩
          | .success result_paths executed_notebook_path =>
              let results : List ExecutionResult :=
                mkRunResults uuid workflow_id executed_notebook_path now result_paths
              let s2 := if results.length > 0 then
                  BigQueryService.insertResults s1 results
                else s1
              ⟨.completed executed_notebook_path result_paths
                 (getModelPath modelExists workflow_id),
               BigQueryService.updateWorkflowStatus s2 workflow_id creator
                 .COMPLETED now,
               [execPayload]⟩

/-! ### Storage controller metadata writes (`storage.controller.ts`) -/

/-- The metadata-insert effect of `generateUploadUrl` (and of `uploadFile`):
after validating the parameters and the file type, a `dataset` upload inserts
one Dataset row and a `key` upload inserts one WrappedKey row (with
`key_id = dataset_id`) into the owner's table; a `workload` upload writes no
metadata. -/
def uploadMeta (s : Store) (file_type workflow_id dataset_id filename owner : String)
    (now : Nat) : Store :=
  if workflow_id == "" || dataset_id == "" || filename == "" || file_type == ""
      || owner == "" then s
  else if !(file_type == "dataset" || file_type == "workload" || file_type == "key")
      then s
  else
    let objectName := file_type ++ "s/" ++ owner ++ "/" ++ workflow_id ++ "/"
      ++ dataset_id ++ "/" ++ filename
    let gcsPath := "gs://" ++ gcpBucket ++ "/" ++ objectName
    if file_type == "dataset" then
      { s with datasets := s.datasets ++
          [(owner, ⟨dataset_id, workflow_id, owner, filename, gcsPath, now⟩)] }
    else if file_type == "key" then
      { s with keys := s.keys ++
          [(owner, ⟨dataset_id, dataset_id, workflow_id, owner, gcsPath, now⟩)] }
    else s

/-- The status of the workflow `(workflowId, creator)` as read back through
`getWorkflow`. -/
def statusOf (s : Store) (workflowId creator : String) : Option WorkflowStatus :=
  (BigQueryService.getWorkflow s workflowId creator).map (fun w => w.status)

/-! ### The public mutating interface, as one operation type -/

/-- One state-mutating request of the public API. Read-only endpoints
(`getWorkflow`, `getAllWorkflows`, `getWorkflowResults`, `getDashboardStats`,
log and attestation proxies, download URLs) leave the store untouched and are
omitted. -/
inductive Op where
  | createOp (workflow_id creator : String) (collaborators : Option (List String))
  | approveOp (workflow_id client_id : String)
  | runOp (workflow_id creator : String) (collaborators : List String)
      (exec : ExecuteRequest → ExecutorOutcome) (uuid : Nat → String)
      (modelExists : Bool)
  | uploadOp (file_type workflow_id dataset_id filename owner : String)

/-- Apply one public operation, at time `now`, to the store. -/
def applyOp (s : Store) : Op → Nat → Store
  | .createOp wid c cs, now => (createWorkflow s wid c cs now).2
  | .approveOp wid cl, now => (approveWorkflow s wid cl now).2
  | .runOp wid c cs exec uuid mE, now => (runWorkflow s wid c cs exec uuid mE now).store
  | .uploadOp ft wid did fn ow, now => uploadMeta s ft wid did fn ow now

/-- Apply a timed sequence of public operations, oldest first. -/
def applyOps (s : Store) : List (Op × Nat) → Store
  | [] => s
  | (op, t) :: rest => applyOps (applyOp s op t) rest

/-! ### Shared concrete scenario for witnesses

A reachable store: creator `A` creates workflow `W` with collaborator `B`,
`B` approves, `A` uploads one dataset and its wrapped key. -/

def demoStore : Store :=
  uploadMeta
    (uploadMeta
      ((approveWorkflow ((createWorkflow emptyStore "W" "A" (some ["B"]) 0).2)
          "W" "B" 1).2)
      "dataset" "W" "d1" "f.csv" "A" 2)
    "key" "W" "d1" "k.bin" "A" 3

/-- A reachable store where the workflow exists and is approved but no
dataset was uploaded. -/
def demoStoreNoData : Store :=
  (approveWorkflow ((createWorkflow emptyStore "W" "A" (some ["B"]) 0).2)
    "W" "B" 1).2

def demoExecOk : ExecuteRequest → ExecutorOutcome :=
  fun _ => .success ["gs://res1"] "gs://exec1"

def demoExecFail : ExecuteRequest → ExecutorOutcome :=
  fun _ => .failure "timeout of 600000ms exceeded"

def demoUuid : Nat → String := fun i => "uuid-" ++ toString i

/-! ### Basic lemmas about the store operations -/

theorem assembleDatasets_updateWorkflowStatus (s : Store)
    (wid cr : String) (st : WorkflowStatus) (t : Nat)
    (workflowId creator : String) (collaborators : List String) :
    assembleDatasets (BigQueryService.updateWorkflowStatus s wid cr st t)
      workflowId creator collaborators
    = assembleDatasets s workflowId creator collaborators := rfl

theorem head_map_filter_update (workflowId creator : String) (st : WorkflowStatus)
    (now : Nat) (l : List (String × Workflow)) :
    (((l.map (BigQueryService.updateRow workflowId creator st now)).filter
        (fun p => p.1 == creator && p.2.workflow_id == workflowId)).map
      (fun p => p.2)).head?
    = (((l.filter (fun p => p.1 == creator && p.2.workflow_id == workflowId)).map
        (fun p => p.2)).head?).map
        (fun w => { w with status := st, updated_at := some now }) := by
  induction l with
  | nil => rfl
  | cons p t ih =>
    by_cases h : (p.1 == creator && p.2.workflow_id == workflowId) = true
    · simp [BigQueryService.updateRow, h, List.filter_cons]
    · have hup : BigQueryService.updateRow workflowId creator st now p = p := by
        simp [BigQueryService.updateRow, h]
      simp [hup, List.filter_cons, h, ih]

/-- Reading the workflow back after an `updateWorkflowStatus` yields the same
row with the new status and timestamp. -/
theorem getWorkflow_updateWorkflowStatus (s : Store) (workflowId creator : String)
    (st : WorkflowStatus) (now : Nat) :
    BigQueryService.getWorkflow
      (BigQueryService.updateWorkflowStatus s workflowId creator st now)
      workflowId creator
    = (BigQueryService.getWorkflow s workflowId creator).map
        (fun w => { w with status := st, updated_at := some now }) := by
  unfold BigQueryService.getWorkflow BigQueryService.updateWorkflowStatus
  exact head_map_filter_update workflowId creator st now s.workflows

theorem statusOf_update_of_found {s : Store} {workflowId creator : String}
    {w : Workflow} (st : WorkflowStatus) (now : Nat)
    (h : BigQueryService.getWorkflow s workflowId creator = some w) :
    statusOf (BigQueryService.updateWorkflowStatus s workflowId creator st now)
      workflowId creator = some st := by
  simp [statusOf, getWorkflow_updateWorkflowStatus, h]

/-! ### The approval loop of `runWorkflow` -/

theorem firstUnapproved_eq_none_iff (s : Store) (workflowId : String)
    (cols : List String) :
    firstUnapproved s workflowId cols = none
    ↔ ∀ c ∈ cols, BigQueryService.isWorkflowApprovedOk s workflowId c = true := by
  induction cols with
  | nil => simp [firstUnapproved]
  | cons c cs ih =>
    by_cases h : BigQueryService.isWorkflowApprovedOk s workflowId c = true
    · simp [firstUnapproved, h, ih]
    · simp [firstUnapproved, h]

theorem firstUnapproved_eq_some_of (s : Store) (workflowId : String)
    (pre : List String) (c : String) (suf : List String)
    (hpre : ∀ x ∈ pre, BigQueryService.isWorkflowApprovedOk s workflowId x = true)
    (hc : BigQueryService.isWorkflowApprovedOk s workflowId c = false) :
    firstUnapproved s workflowId (pre ++ c :: suf) = some c := by
  induction pre with
  | nil => simp [firstUnapproved, hc]
  | cons p ps ih =>
    have hp : BigQueryService.isWorkflowApprovedOk s workflowId p = true :=
      hpre p (List.mem_cons_self p ps)
    simp only [List.cons_append, firstUnapproved, hp, if_pos]
    exact ih (fun x hx => hpre x (List.mem_cons_of_mem p hx))

/-! ### Branch lemmas for `runWorkflow` -/

theorem runWorkflow_notApproved_branch {s : Store} {workflow_id creator : String}
    {collaborators : List String} {exec : ExecuteRequest → ExecutorOutcome}
    {uuid : Nat → String} {modelExists : Bool} {now : Nat} {c : String}
    (hb : (creator == "") = false)
    (h : firstUnapproved s workflow_id collaborators = some c) :
    runWorkflow s workflow_id creator collaborators exec uuid modelExists now
      = ⟨.notApproved ("Workflow not approved by " ++ c), s, []⟩ := by
  simp [runWorkflow, hb, h]

theorem runWorkflow_notFound_branch {s : Store} {workflow_id creator : String}
    {collaborators : List String} {exec : ExecuteRequest → ExecutorOutcome}
    {uuid : Nat → String} {modelExists : Bool} {now : Nat}
    (hb : (creator == "") = false)
    (h1 : firstUnapproved s workflow_id collaborators = none)
    (h2 : BigQueryService.getWorkflow s workflow_id creator = none) :
    runWorkflow s workflow_id creator collaborators exec uuid modelExists now
      = ⟨.notFound "Workflow not found", s, []⟩ := by
  simp [runWorkflow, hb, h1, h2]

theorem runWorkflow_noDatasets_branch {s : Store} {workflow_id creator : String}
    {collaborators : List String} {exec : ExecuteRequest → ExecutorOutcome}
    {uuid : Nat → String} {modelExists : Bool} {now : Nat} {w : Workflow}
    (hb : (creator == "") = false)
    (h1 : firstUnapproved s workflow_id collaborators = none)
    (h2 : BigQueryService.getWorkflow s workflow_id creator = some w)
    (h3 : assembleDatasets s workflow_id creator collaborators = []) :
    runWorkflow s workflow_id creator collaborators exec uuid modelExists now
      = ⟨.noDatasets "No datasets found for this workflow",
         BigQueryService.updateWorkflowStatus s workflow_id creator .RUNNING now,
         []⟩ := by
  simp [runWorkflow, hb, h1, h2, assembleDatasets_updateWorkflowStatus, h3]

theorem runWorkflow_failure_branch {s : Store} {workflow_id creator : String}
    {collaborators : List String} {exec : ExecuteRequest → ExecutorOutcome}
    {uuid : Nat → String} {modelExists : Bool} {now : Nat} {w : Workflow}
    {msg : String}
    (hb : (creator == "") = false)
    (h1 : firstUnapproved s workflow_id collaborators = none)
    (h2 : BigQueryService.getWorkflow s workflow_id creator = some w)
    (h3 : assembleDatasets s workflow_id creator collaborators ≠ [])
    (h4 : exec (buildExecPayload workflow_id w.workload_path
            (assembleDatasets s workflow_id creator collaborators))
          = .failure msg) :
    runWorkflow s workflow_id creator collaborators exec uuid modelExists now
      = ⟨.executorFailed "Executor failed" msg,
         BigQueryService.updateWorkflowStatus
           (BigQueryService.updateWorkflowStatus s workflow_id creator
             .RUNNING now)
           workflow_id creator .FAILED now,
         [buildExecPayload workflow_id w.workload_path
           (assembleDatasets s workflow_id creator collaborators)]⟩ := by
  have hlen : ((assembleDatasets s workflow_id creator collaborators).length == 0)
      = false := by
    simp only [beq_eq_false_iff_ne, ne_eq, List.length_eq_zero]
    exact h3
  simp [runWorkflow, hb, h1, h2, assembleDatasets_updateWorkflowStatus, hlen, h4]

theorem runWorkflow_success_branch {s : Store} {workflow_id creator : String}
    {collaborators : List String} {exec : ExecuteRequest → ExecutorOutcome}
    {uuid : Nat → String} {modelExists : Bool} {now : Nat} {w : Workflow}
    {result_paths : List String} {executed_notebook_path : String}
    (hb : (creator == "") = false)
    (h1 : firstUnapproved s workflow_id collaborators = none)
    (h2 : BigQueryService.getWorkflow s workflow_id creator = some w)
    (h3 : assembleDatasets s workflow_id creator collaborators ≠ [])
    (h4 : exec (buildExecPayload workflow_id w.workload_path
            (assembleDatasets s workflow_id creator collaborators))
          = .success result_paths executed_notebook_path) :
    runWorkflow s workflow_id creator collaborators exec uuid modelExists now
      = ⟨.completed executed_notebook_path result_paths
           (getModelPath modelExists workflow_id),
         BigQueryService.updateWorkflowStatus
           (if (mkRunResults uuid workflow_id executed_notebook_path now
                  result_paths).length > 0 then
              BigQueryService.insertResults
                (BigQueryService.updateWorkflowStatus s workflow_id creator
                  .RUNNING now)
                (mkRunResults uuid workflow_id executed_notebook_path now
                  result_paths)
            else
              BigQueryService.updateWorkflowStatus s workflow_id creator
                .RUNNING now)
           workflow_id creator .COMPLETED now,
         [buildExecPayload workflow_id w.workload_path
           (assembleDatasets s workflow_id creator collaborators)]⟩ := by
  have hlen : ((assembleDatasets s workflow_id creator collaborators).length == 0)
      = false := by
    simp only [beq_eq_false_iff_ne, ne_eq, List.length_eq_zero]
    exact h3
  simp [runWorkflow, hb, h1, h2, assembleDatasets_updateWorkflowStatus, hlen, h4]

/-- Every result of `runWorkflow` is exactly one of the six response shapes,
with `notApproved` happening precisely when the approval loop stops. -/
theorem runWorkflow_res_notApproved_iff {s : Store} {workflow_id creator : String}
    {collaborators : List String} {exec : ExecuteRequest → ExecutorOutcome}
    {uuid : Nat → String} {modelExists : Bool} {now : Nat}
    (hb : (creator == "") = false) :
    (∃ e, (runWorkflow s workflow_id creator collaborators exec uuid modelExists
        now).res = RunResult.notApproved e)
    ↔ firstUnapproved s workflow_id collaborators ≠ none := by
  constructor
  · rintro ⟨e, he⟩ hnone
    cases h2 : BigQueryService.getWorkflow s workflow_id creator with
    | none =>
      rw [runWorkflow_notFound_branch hb hnone h2] at he
      cases he
    | some w =>
      by_cases h3 : assembleDatasets s workflow_id creator collaborators = []
      · rw [runWorkflow_noDatasets_branch hb hnone h2 h3] at he
        cases he
      · cases h4 : exec (buildExecPayload workflow_id w.workload_path
            (assembleDatasets s workflow_id creator collaborators)) with
        | failure msg =>
          rw [runWorkflow_failure_branch hb hnone h2 h3 h4] at he
          cases he
        | success ps ep =>
          rw [runWorkflow_success_branch hb hnone h2 h3 h4] at he
          cases he
  · intro h
    cases hfa : firstUnapproved s workflow_id collaborators with
    | none => exact absurd hfa h
    | some c =>
      exact ⟨"Workflow not approved by " ++ c,
        by rw [runWorkflow_notApproved_branch hb hfa]⟩

/-! ### C1 — the approval gate of `run` -/

/-- C1: a run request (with a well-formed creator) fails with `NotApproved`
iff some collaborator in the caller-supplied list has no current affirmative
approval; the loop walks the list in order and aborts on the first unapproved
collaborator, naming it in the error, and in that case the store is untouched
(no status update) and nothing is dispatched to the executor; the response is
HTTP 403. -/
theorem claim_C1 (s : Store) (workflow_id creator : String)
    (collaborators : List String) (exec : ExecuteRequest → ExecutorOutcome)
    (uuid : Nat → String) (modelExists : Bool) (now : Nat)
    (hc : creator ≠ "") :
    ((∃ e, (runWorkflow s workflow_id creator collaborators exec uuid modelExists
        now).res = RunResult.notApproved e)
      ↔ ∃ c ∈ collaborators,
          BigQueryService.isWorkflowApprovedOk s workflow_id c = false)
    ∧ (∀ pre c suf, collaborators = pre ++ c :: suf →
        (∀ x ∈ pre, BigQueryService.isWorkflowApprovedOk s workflow_id x = true) →
        BigQueryService.isWorkflowApprovedOk s workflow_id c = false →
        (runWorkflow s workflow_id creator collaborators exec uuid modelExists
            now).res = RunResult.notApproved ("Workflow not approved by " ++ c)
        ∧ (runWorkflow s workflow_id creator collaborators exec uuid modelExists
            now).store = s
        ∧ (runWorkflow s workflow_id creator collaborators exec uuid modelExists
            now).dispatched = [])
    ∧ (∀ e, RunResult.httpStatus (RunResult.notApproved e) = 403) := by
  have hb : (creator == "") = false := by simp [hc]
  refine ⟨?_, ?_, fun _ => rfl⟩
  · rw [runWorkflow_res_notApproved_iff hb]
    rw [Ne, firstUnapproved_eq_none_iff]
    push_neg
    constructor
    · rintro ⟨c, hc1, hc2⟩
      exact ⟨c, hc1, by simpa using hc2⟩
    · rintro ⟨c, hc1, hc2⟩
      exact ⟨c, hc1, by simpa using hc2⟩
  · intro pre c suf hsplit hpre hcf
    have hfa : firstUnapproved s workflow_id collaborators = some c := by
      rw [hsplit]
      exact firstUnapproved_eq_some_of s workflow_id pre c suf hpre hcf
    rw [runWorkflow_notApproved_branch hb hfa]
    exact ⟨rfl, rfl, rfl⟩

theorem claim_C1_witness :
    (runWorkflow demoStore "W" "A" ["B", "C"] demoExecOk demoUuid false 9).res
      = RunResult.notApproved "Workflow not approved by C"
    ∧ (runWorkflow demoStore "W" "A" ["B", "C"] demoExecOk demoUuid false
        9).store = demoStore
    ∧ (runWorkflow demoStore "W" "A" ["B", "C"] demoExecOk demoUuid false
        9).dispatched = [] := by
  have h := (claim_C1 demoStore "W" "A" ["B", "C"] demoExecOk demoUuid false 9
      (by decide)).2.1 ["B"] "C" [] rfl (by decide) (by decide)
  exact h

/-! ### C3 — the per-owner dataset/key join -/

theorem assemble_fold_aux (s : Store) (workflowId creator : String) :
    ∀ (cols : List String) (acc : List DatasetSpec),
      cols.foldl
        (fun acc collaborator =>
          if collaborator == creator then acc
          else acc ++ ownerMatches s workflowId collaborator) acc
      = acc ++ ((cols.filter (fun c => !(c == creator))).map
          (fun c => ownerMatches s workflowId c)).flatten := by
  intro cols
  induction cols with
  | nil => intro acc; simp
  | cons c cs ih =>
    intro acc
    by_cases h : (c == creator) = true
    · simp only [List.foldl_cons, h, if_pos, List.filter_cons, Bool.not_true,
        Bool.false_eq_true, if_neg, ih]
      simp [h]
    · have hne : (c == creator) = false := by
        cases hcc : (c == creator) with
        | true => exact absurd hcc h
        | false => rfl
      simp only [List.foldl_cons, hne, Bool.false_eq_true, if_neg, ih,
        List.filter_cons]
      simp [hne, List.append_assoc]

/-- The imperative assembly loop equals: creator block first, then one block
per collaborator in list order, creator occurrences skipped. -/
theorem assembleDatasets_eq (s : Store) (workflowId creator : String)
    (collaborators : List String) :
    assembleDatasets s workflowId creator collaborators
    = ownerMatches s workflowId creator
      ++ ((collaborators.filter (fun c => !(c == creator))).map
          (fun c => ownerMatches s workflowId c)).flatten := by
  unfold assembleDatasets
  exact assemble_fold_aux s workflowId creator collaborators _

theorem mem_ownerMatches (s : Store) (workflowId o : String) (t : DatasetSpec) :
    t ∈ ownerMatches s workflowId o
    ↔ ∃ d ∈ BigQueryService.getDatasets s workflowId o, ∃ k,
        (BigQueryService.getKeys s workflowId o).find?
          (fun x => x.dataset_id == d.dataset_id) = some k
        ∧ t = ⟨o, d.gcs_path, k.gcs_path⟩ := by
  simp only [ownerMatches, List.mem_filterMap, Option.map_eq_some']
  constructor
  · rintro ⟨d, hd, k, hk, rfl⟩
    exact ⟨d, hd, k, hk, rfl⟩
  · rintro ⟨d, hd, k, hk, rfl⟩
    exact ⟨d, hd, k, hk, rfl⟩

theorem getKeys_owner_eq (s : Store) (workflowId o : String) :
    ∀ k ∈ BigQueryService.getKeys s workflowId o,
      k.owner = o ∧ k.workflow_id = workflowId := by
  intro k hk
  simp only [BigQueryService.getKeys, List.mem_map] at hk
  obtain ⟨row, _, rfl⟩ := hk
  exact ⟨rfl, rfl⟩

theorem getDatasets_owner_eq (s : Store) (workflowId o : String) :
    ∀ d ∈ BigQueryService.getDatasets s workflowId o,
      d.owner = o ∧ d.workflow_id = workflowId := by
  intro d hd
  simp only [BigQueryService.getDatasets, List.mem_map] at hd
  obtain ⟨row, _, rfl⟩ := hd
  exact ⟨rfl, rfl⟩

/-- C3: the assembled list is the creator's matched tuples followed by each
collaborator's matched tuples in the order given to `run` (creator skipped in
the collaborator loop); a tuple is in the list iff it comes from a dataset of
one of those owners that has a wrapped key of the *same* owner with the same
dataset id (unmatched datasets and orphan keys are simply absent — no error);
the matched key always belongs to the same owner's key rows and carries the
dataset's id, and owner rows are only ever drawn from that owner's own
tables. -/
theorem claim_C3 (s : Store) (workflowId creator : String)
    (collaborators : List String) :
    (assembleDatasets s workflowId creator collaborators
      = ownerMatches s workflowId creator
        ++ ((collaborators.filter (fun c => !(c == creator))).map
            (fun c => ownerMatches s workflowId c)).flatten)
    ∧ (∀ t : DatasetSpec, t ∈ assembleDatasets s workflowId creator collaborators
        ↔ ∃ o, (o = creator ∨ (o ∈ collaborators ∧ o ≠ creator))
            ∧ t ∈ ownerMatches s workflowId o)
    ∧ (∀ (o : String) (t : DatasetSpec), t ∈ ownerMatches s workflowId o
        ↔ ∃ d ∈ BigQueryService.getDatasets s workflowId o, ∃ k,
            (BigQueryService.getKeys s workflowId o).find?
              (fun x => x.dataset_id == d.dataset_id) = some k
            ∧ t = ⟨o, d.gcs_path, k.gcs_path⟩)
    ∧ (∀ (o : String) (d : Dataset), d ∈ BigQueryService.getDatasets s workflowId o →
        ((∃ k ∈ BigQueryService.getKeys s workflowId o,
            k.dataset_id = d.dataset_id)
          ↔ ∃ k, (BigQueryService.getKeys s workflowId o).find?
              (fun x => x.dataset_id == d.dataset_id) = some k))
    ∧ (∀ (o : String) (d : Dataset) (k : WrappedKey),
        (BigQueryService.getKeys s workflowId o).find?
          (fun x => x.dataset_id == d.dataset_id) = some k →
        k ∈ BigQueryService.getKeys s workflowId o
        ∧ k.dataset_id = d.dataset_id)
    ∧ (∀ (o : String) (k : WrappedKey), k ∈ BigQueryService.getKeys s workflowId o →
        k.owner = o ∧ k.workflow_id = workflowId)
    ∧ (∀ (o : String) (d : Dataset), d ∈ BigQueryService.getDatasets s workflowId o →
        d.owner = o ∧ d.workflow_id = workflowId) := by
  refine ⟨assembleDatasets_eq s workflowId creator collaborators, ?_, ?_, ?_,
    ?_, getKeys_owner_eq s workflowId, getDatasets_owner_eq s workflowId⟩
  · intro t
    rw [assembleDatasets_eq s workflowId creator collaborators]
    simp only [List.mem_append, List.mem_flatten, List.mem_map, List.mem_filter]
    constructor
    · rintro (ht | ⟨l, ⟨c, ⟨hcmem, hcne⟩, rfl⟩, ht⟩)
      · exact ⟨creator, Or.inl rfl, ht⟩
      · refine ⟨c, Or.inr ⟨hcmem, ?_⟩, ht⟩
        simpa using hcne
    · rintro ⟨o, ho | ⟨hom, hone⟩, ht⟩
      · subst ho; exact Or.inl ht
      · refine Or.inr ⟨ownerMatches s workflowId o, ⟨o, ⟨hom, ?_⟩, rfl⟩, ht⟩
        simpa using hone
  · intro o t
    exact mem_ownerMatches s workflowId o t
  · intro o d _
    constructor
    · rintro ⟨k, hk, hkd⟩
      have : ((BigQueryService.getKeys s workflowId o).find?
          (fun x => x.dataset_id == d.dataset_id)).isSome := by
        rw [List.find?_isSome]
        exact ⟨k, hk, by simp [hkd]⟩
      obtain ⟨k2, hk2⟩ := Option.isSome_iff_exists.mp this
      exact ⟨k2, hk2⟩
    · rintro ⟨k, hk⟩
      refine ⟨k, List.mem_of_find?_eq_some hk, ?_⟩
      have := List.find?_some hk
      simpa using this
  · intro o d k hk
    refine ⟨List.mem_of_find?_eq_some hk, ?_⟩
    have := List.find?_some hk
    simpa using this

theorem claim_C3_witness :
    assembleDatasets demoStore "W" "A" ["B", "A"]
      = [⟨"A", "gs://yellowsense-technologies-cleanroom/datasets/A/W/d1/f.csv",
          "gs://yellowsense-technologies-cleanroom/keys/A/W/d1/k.bin"⟩]
    ∧ (⟨"A", "gs://yellowsense-technologies-cleanroom/datasets/A/W/d1/f.csv",
        "gs://yellowsense-technologies-cleanroom/keys/A/W/d1/k.bin"⟩ : DatasetSpec)
        ∈ ownerMatches demoStore "W" "A"
    ∧ (∃ k, (BigQueryService.getKeys demoStore "W" "A").find?
        (fun x => x.dataset_id == "d1") = some k) := by
  have h := claim_C3 demoStore "W" "A" ["B", "A"]
  refine ⟨?_, ?_, ?_⟩
  · rw [h.1]
    decide
  · exact (h.2.2.1 "A" _).mpr
      ⟨⟨"d1", "W", "A", "f.csv", "gs://yellowsense-technologies-cleanroom/datasets/A/W/d1/f.csv", 2⟩,
        by decide,
        ⟨"d1", "d1", "W", "A", "gs://yellowsense-technologies-cleanroom/keys/A/W/d1/k.bin", 3⟩,
        by decide, rfl⟩
  · exact (h.2.2.2.1 "A"
      ⟨"d1", "W", "A", "f.csv", "gs://yellowsense-technologies-cleanroom/datasets/A/W/d1/f.csv", 2⟩
      (by decide)).mp
      ⟨⟨"d1", "d1", "W", "A", "gs://yellowsense-technologies-cleanroom/keys/A/W/d1/k.bin", 3⟩,
        by decide, rfl⟩

/-! ### The success-path result rows -/

theorem mkRunResults_map_result_path (uuid : Nat → String)
    (workflowId executedPath : String) (now : Nat) (resultPaths : List String) :
    (mkRunResults uuid workflowId executedPath now resultPaths).map
      (fun r => r.result_path) = resultPaths := by
  simp only [mkRunResults, List.map_map]
  exact List.enumFrom_map_snd 0 resultPaths

theorem mkRunResults_length (uuid : Nat → String)
    (workflowId executedPath : String) (now : Nat) (resultPaths : List String) :
    (mkRunResults uuid workflowId executedPath now resultPaths).length
      = resultPaths.length := by
  simp [mkRunResults]

theorem mem_mkRunResults (uuid : Nat → String)
    (workflowId executedPath : String) (now : Nat) (resultPaths : List String)
    (r : ExecutionResult)
    (hr : r ∈ mkRunResults uuid workflowId executedPath now resultPaths) :
    r.workflow_id = workflowId ∧ r.executed_notebook_path = executedPath
    ∧ r.result_path ∈ resultPaths := by
  simp only [mkRunResults, List.mem_map] at hr
  obtain ⟨p, hp, rfl⟩ := hr
  refine ⟨rfl, rfl, ?_⟩
  have h : p.2 ∈ resultPaths.enum.map Prod.snd := List.mem_map_of_mem Prod.snd hp
  have he : resultPaths.enum.map Prod.snd = resultPaths :=
    List.enumFrom_map_snd 0 resultPaths
  rwa [he] at h

theorem ite_insertResults_results (t : Store) (rows : List ExecutionResult) :
    (if rows.length > 0 then BigQueryService.insertResults t rows else t).results
      = t.results ++ rows := by
  by_cases h : rows.length > 0
  · simp [h, BigQueryService.insertResults]
  · have hnil : rows = [] := List.length_eq_zero.mp (Nat.le_zero.mp (Nat.not_lt.mp h))
    simp [h, hnil]

theorem getWorkflow_insertResults (t : Store) (rs : List ExecutionResult)
    (workflowId creator : String) :
    BigQueryService.getWorkflow (BigQueryService.insertResults t rs)
      workflowId creator
    = BigQueryService.getWorkflow t workflowId creator := rfl

/-! ### C4 — executor failure handling -/

/-- C4: when the run reaches the executor call and the call fails (or times
out), the workflow is set to `FAILED`, the response is `ExecutorUnavailable`
(HTTP 502) carrying the upstream error message, no ExecutionResult row is
inserted, and exactly one request was dispatched (no retry). -/
theorem claim_C4 (s : Store) (workflow_id creator : String)
    (collaborators : List String) (exec : ExecuteRequest → ExecutorOutcome)
    (uuid : Nat → String) (modelExists : Bool) (now : Nat) (w : Workflow)
    (msg : String)
    (hc : creator ≠ "")
    (h1 : firstUnapproved s workflow_id collaborators = none)
    (h2 : BigQueryService.getWorkflow s workflow_id creator = some w)
    (h3 : assembleDatasets s workflow_id creator collaborators ≠ [])
    (h4 : exec (buildExecPayload workflow_id w.workload_path
            (assembleDatasets s workflow_id creator collaborators))
          = .failure msg) :
    (runWorkflow s workflow_id creator collaborators exec uuid modelExists
        now).res = RunResult.executorFailed "Executor failed" msg
    ∧ RunResult.httpStatus (RunResult.executorFailed "Executor failed" msg) = 502
    ∧ (runWorkflow s workflow_id creator collaborators exec uuid modelExists
        now).store.results = s.results
    ∧ statusOf (runWorkflow s workflow_id creator collaborators exec uuid
        modelExists now).store workflow_id creator = some WorkflowStatus.FAILED
    ∧ (runWorkflow s workflow_id creator collaborators exec uuid modelExists
        now).dispatched
      = [buildExecPayload workflow_id w.workload_path
          (assembleDatasets s workflow_id creator collaborators)] := by
  have hb : (creator == "") = false := by simp [hc]
  rw [runWorkflow_failure_branch hb h1 h2 h3 h4]
  refine ⟨rfl, rfl, rfl, ?_, rfl⟩
  have hgw1 : BigQueryService.getWorkflow
      (BigQueryService.updateWorkflowStatus s workflow_id creator .RUNNING now)
      workflow_id creator
      = some { w with status := .RUNNING, updated_at := some now } := by
    rw [getWorkflow_updateWorkflowStatus, h2]
    rfl
  exact statusOf_update_of_found .FAILED now hgw1

theorem claim_C4_witness :
    (runWorkflow demoStore "W" "A" ["B"] demoExecFail demoUuid false 4).res
      = RunResult.executorFailed "Executor failed" "timeout of 600000ms exceeded"
    ∧ (runWorkflow demoStore "W" "A" ["B"] demoExecFail demoUuid false
        4).store.results = demoStore.results
    ∧ statusOf (runWorkflow demoStore "W" "A" ["B"] demoExecFail demoUuid false
        4).store "W" "A" = some WorkflowStatus.FAILED
    ∧ (runWorkflow demoStore "W" "A" ["B"] demoExecFail demoUuid false
        4).dispatched.length = 1 := by
  have h := claim_C4 demoStore "W" "A" ["B"] demoExecFail demoUuid false 4
    ⟨"W", "A", ["B"], fixedWorkloadPath, .PENDING_APPROVAL, 0, none⟩
    "timeout of 600000ms exceeded"
    (by decide) (by decide) (by decide) (by decide) rfl
  refine ⟨h.1, h.2.2.1, h.2.2.2.1, ?_⟩
  rw [h.2.2.2.2]
  rfl

/-! ### C5 — executor success handling -/

/-- C5: when the run reaches the executor call and the call succeeds, one
ExecutionResult row is persisted per returned result reference (a single
batch append), the workflow is set to `COMPLETED`, the response carries the
executed-artifact reference, all result references and the optional model
reference, and the dispatched request's output path bases are derived from
the workflow id as `.../results/{workflowId}/result` and
`.../results/{workflowId}/executed`. -/
theorem claim_C5 (s : Store) (workflow_id creator : String)
    (collaborators : List String) (exec : ExecuteRequest → ExecutorOutcome)
    (uuid : Nat → String) (modelExists : Bool) (now : Nat) (w : Workflow)
    (result_paths : List String) (executed_notebook_path : String)
    (hc : creator ≠ "")
    (h1 : firstUnapproved s workflow_id collaborators = none)
    (h2 : BigQueryService.getWorkflow s workflow_id creator = some w)
    (h3 : assembleDatasets s workflow_id creator collaborators ≠ [])
    (h4 : exec (buildExecPayload workflow_id w.workload_path
            (assembleDatasets s workflow_id creator collaborators))
          = .success result_paths executed_notebook_path) :
    (runWorkflow s workflow_id creator collaborators exec uuid modelExists
        now).res
      = RunResult.completed executed_notebook_path result_paths
          (getModelPath modelExists workflow_id)
    ∧ (runWorkflow s workflow_id creator collaborators exec uuid modelExists
        now).store.results
      = s.results
        ++ mkRunResults uuid workflow_id executed_notebook_path now result_paths
    ∧ (mkRunResults uuid workflow_id executed_notebook_path now
        result_paths).map (fun r => r.result_path) = result_paths
    ∧ (mkRunResults uuid workflow_id executed_notebook_path now
        result_paths).length = result_paths.length
    ∧ (∀ r ∈ mkRunResults uuid workflow_id executed_notebook_path now
          result_paths,
        r.workflow_id = workflow_id
        ∧ r.executed_notebook_path = executed_notebook_path
        ∧ r.result_path ∈ result_paths)
    ∧ statusOf (runWorkflow s workflow_id creator collaborators exec uuid
        modelExists now).store workflow_id creator
      = some WorkflowStatus.COMPLETED
    ∧ (runWorkflow s workflow_id creator collaborators exec uuid modelExists
        now).dispatched
      = [buildExecPayload workflow_id w.workload_path
          (assembleDatasets s workflow_id creator collaborators)]
    ∧ (buildExecPayload workflow_id w.workload_path
        (assembleDatasets s workflow_id creator collaborators)).result_base
      = "gs://" ++ gcpBucket ++ "/results/" ++ workflow_id ++ "/result"
    ∧ (buildExecPayload workflow_id w.workload_path
        (assembleDatasets s workflow_id creator
          collaborators)).executed_notebook_base
      = "gs://" ++ gcpBucket ++ "/results/" ++ workflow_id ++ "/executed" := by
  have hb : (creator == "") = false := by simp [hc]
  rw [runWorkflow_success_branch hb h1 h2 h3 h4]
  refine ⟨rfl, ?_, mkRunResults_map_result_path uuid _ _ now result_paths,
    mkRunResults_length uuid _ _ now result_paths,
    fun r hr => mem_mkRunResults uuid _ _ now result_paths r hr, ?_, rfl, rfl, rfl⟩
  · exact ite_insertResults_results _ _
  · have hgw1 : BigQueryService.getWorkflow
        (BigQueryService.updateWorkflowStatus s workflow_id creator .RUNNING now)
        workflow_id creator
        = some { w with status := .RUNNING, updated_at := some now } := by
      rw [getWorkflow_updateWorkflowStatus, h2]
      rfl
    have hgw2 : BigQueryService.getWorkflow
        (if (mkRunResults uuid workflow_id executed_notebook_path now
              result_paths).length > 0 then
          BigQueryService.insertResults
            (BigQueryService.updateWorkflowStatus s workflow_id creator
              .RUNNING now)
            (mkRunResults uuid workflow_id executed_notebook_path now
              result_paths)
        else
          BigQueryService.updateWorkflowStatus s workflow_id creator
            .RUNNING now)
        workflow_id creator
        = some { w with status := .RUNNING, updated_at := some now } := by
      by_cases hl : (mkRunResults uuid workflow_id executed_notebook_path now
          result_paths).length > 0
      · rw [if_pos hl, getWorkflow_insertResults]
        exact hgw1
      · rw [if_neg hl]
        exact hgw1
    exact statusOf_update_of_found .COMPLETED now hgw2

theorem claim_C5_witness :
    (runWorkflow demoStore "W" "A" ["B"] demoExecOk demoUuid false 4).res
      = RunResult.completed "gs://exec1" ["gs://res1"] none
    ∧ (runWorkflow demoStore "W" "A" ["B"] demoExecOk demoUuid false
        4).store.results
      = demoStore.results
        ++ [⟨"uuid-0", "W", "gs://exec1", "gs://res1", 4⟩]
    ∧ statusOf (runWorkflow demoStore "W" "A" ["B"] demoExecOk demoUuid false
        4).store "W" "A" = some WorkflowStatus.COMPLETED
    ∧ (runWorkflow demoStore "W" "A" ["B"] demoExecOk demoUuid false
        4).dispatched.map (fun rq => rq.result_base)
      = ["gs://" ++ gcpBucket ++ "/results/W/result"] := by
  have h := claim_C5 demoStore "W" "A" ["B"] demoExecOk demoUuid false 4
    ⟨"W", "A", ["B"], fixedWorkloadPath, .PENDING_APPROVAL, 0, none⟩
    ["gs://res1"] "gs://exec1"
    (by decide) (by decide) (by decide) (by decide) rfl
  refine ⟨h.1, ?_, h.2.2.2.2.2.1, ?_⟩
  · rw [h.2.1]
    rfl
  · rw [h.2.2.2.2.2.2.1]
    rfl

/-! ### C6 — the empty-join failure -/

/-- C6: a run that passes the approval and existence checks fails with
`NoDatasets` (HTTP 400) iff the dataset list assembled across the creator and
all named collaborators is empty; in that case the status has already been
set to `RUNNING` and stays `RUNNING` (the store equals the post-`RUNNING`
store — no rollback), and nothing is dispatched. An individual owner with
zero datasets is not an error by itself: the test is the emptiness of the
whole assembled list. -/
theorem claim_C6 (s : Store) (workflow_id creator : String)
    (collaborators : List String) (exec : ExecuteRequest → ExecutorOutcome)
    (uuid : Nat → String) (modelExists : Bool) (now : Nat) (w : Workflow)
    (hc : creator ≠ "")
    (h1 : firstUnapproved s workflow_id collaborators = none)
    (h2 : BigQueryService.getWorkflow s workflow_id creator = some w) :
    ((runWorkflow s workflow_id creator collaborators exec uuid modelExists
        now).res = RunResult.noDatasets "No datasets found for this workflow"
      ↔ assembleDatasets s workflow_id creator collaborators = [])
    ∧ (assembleDatasets s workflow_id creator collaborators = [] →
        (runWorkflow s workflow_id creator collaborators exec uuid modelExists
            now).store
          = BigQueryService.updateWorkflowStatus s workflow_id creator
              .RUNNING now
        ∧ statusOf (runWorkflow s workflow_id creator collaborators exec uuid
            modelExists now).store workflow_id creator
          = some WorkflowStatus.RUNNING
        ∧ (runWorkflow s workflow_id creator collaborators exec uuid modelExists
            now).dispatched = [])
    ∧ RunResult.httpStatus
        (RunResult.noDatasets "No datasets found for this workflow") = 400 := by
  have hb : (creator == "") = false := by simp [hc]
  refine ⟨⟨?_, ?_⟩, ?_, rfl⟩
  · intro hres
    by_contra h3
    cases h4 : exec (buildExecPayload workflow_id w.workload_path
        (assembleDatasets s workflow_id creator collaborators)) with
    | failure msg =>
      rw [runWorkflow_failure_branch hb h1 h2 h3 h4] at hres
      cases hres
    | success ps ep =>
      rw [runWorkflow_success_branch hb h1 h2 h3 h4] at hres
      cases hres
  · intro h3
    rw [runWorkflow_noDatasets_branch hb h1 h2 h3]
  · intro h3
    rw [runWorkflow_noDatasets_branch hb h1 h2 h3]
    exact ⟨rfl, statusOf_update_of_found .RUNNING now h2, rfl⟩

theorem claim_C6_witness :
    (runWorkflow demoStoreNoData "W" "A" ["B"] demoExecOk demoUuid false 4).res
      = RunResult.noDatasets "No datasets found for this workflow"
    ∧ statusOf (runWorkflow demoStoreNoData "W" "A" ["B"] demoExecOk demoUuid
        false 4).store "W" "A" = some WorkflowStatus.RUNNING
    ∧ (runWorkflow demoStoreNoData "W" "A" ["B"] demoExecOk demoUuid false
        4).dispatched = [] := by
  have h := claim_C6 demoStoreNoData "W" "A" ["B"] demoExecOk demoUuid false 4
    ⟨"W", "A", ["B"], fixedWorkloadPath, .PENDING_APPROVAL, 0, none⟩
    (by decide) (by decide) (by decide)
  have h2 := h.2.1 (by decide)
  exact ⟨h.1.mpr (by decide), h2.2.1, h2.2.2⟩

/-! ### C7 — the fail-closed approval read -/

/-- C7: for every workflow id and approver, the approval check returns the
`approved` flag of the most recent approval row (ordered by `approved_at`
descending), returns `false` when no row exists, and returns `false` (rather
than an error) when the underlying store query fails. -/
theorem claim_C7 (s : Store) (workflowId clientId : String) :
    BigQueryService.isWorkflowApproved s workflowId clientId true = false
    ∧ (BigQueryService.approvalRows s workflowId clientId = [] →
        BigQueryService.isWorkflowApproved s workflowId clientId false = false)
    ∧ (∀ r rest,
        sortDescBy (fun a => a.approved_at)
          (BigQueryService.approvalRows s workflowId clientId) = r :: rest →
        BigQueryService.isWorkflowApproved s workflowId clientId false = r.approved
        ∧ r ∈ BigQueryService.approvalRows s workflowId clientId
        ∧ ∀ x ∈ BigQueryService.approvalRows s workflowId clientId,
            x.approved_at ≤ r.approved_at) := by
  refine ⟨rfl, ?_, ?_⟩
  · intro h
    simp [BigQueryService.isWorkflowApproved, BigQueryService.isWorkflowApprovedOk,
      h, sortDescBy]
  · intro r rest hs
    have hmem : r ∈ BigQueryService.approvalRows s workflowId clientId := by
      have : r ∈ sortDescBy (fun a => a.approved_at)
          (BigQueryService.approvalRows s workflowId clientId) := by
        rw [hs]; exact List.mem_cons_self r rest
      exact (mem_sortDescBy _ r _).mp this
    refine ⟨?_, hmem, ?_⟩
    · simp [BigQueryService.isWorkflowApproved, BigQueryService.isWorkflowApprovedOk,
        hs]
    · intro x hx
      have hx' : x ∈ r :: rest := by
        rw [← hs]; exact (mem_sortDescBy _ x _).mpr hx
      rcases List.mem_cons.mp hx' with h | h
      · subst h; exact le_refl _
      · have hp := pairwise_sortDescBy (fun a => a.approved_at)
          (BigQueryService.approvalRows s workflowId clientId)
        rw [hs, List.pairwise_cons] at hp
        exact hp.1 x h

theorem claim_C7_witness :
    BigQueryService.isWorkflowApproved demoStore "W" "B" true = false
    ∧ BigQueryService.isWorkflowApproved demoStore "W" "C" false = false
    ∧ BigQueryService.isWorkflowApproved demoStore "W" "B" false = true := by
  refine ⟨(claim_C7 demoStore "W" "B").1,
    (claim_C7 demoStore "W" "C").2.1 (by decide), ?_⟩
  exact ((claim_C7 demoStore "W" "B").2.2 ⟨"W", "B", true, 1⟩ [] (by decide)).1

/-! ### C9 — recording an approval is append-only and frame-preserving -/

/-- C9: `recordApproval` appends exactly one affirmative approval row to the
approver's approval collection and leaves every other collection — the
workflows (and hence every workflow's `status`), datasets, keys and results —
unchanged. -/
theorem claim_C9 (s : Store) (workflow_id client_id : String) (now : Nat)
    (h : client_id ≠ "") :
    (approveWorkflow s workflow_id client_id now).1
      = ApproveResult.ok workflow_id ("APPROVED_BY_" ++ client_id)
    ∧ (approveWorkflow s workflow_id client_id now).2.approvals
      = s.approvals ++ [(client_id, ⟨workflow_id, client_id, true, now⟩)]
    ∧ (approveWorkflow s workflow_id client_id now).2.workflows = s.workflows
    ∧ (approveWorkflow s workflow_id client_id now).2.datasets = s.datasets
    ∧ (approveWorkflow s workflow_id client_id now).2.keys = s.keys
    ∧ (approveWorkflow s workflow_id client_id now).2.results = s.results := by
  have hb : (client_id == "") = false := by
    simp [h]
  simp [approveWorkflow, BigQueryService.approveWorkflow, hb]

theorem claim_C9_witness :
    (approveWorkflow demoStore "W" "C" 7).1
      = ApproveResult.ok "W" "APPROVED_BY_C"
    ∧ (approveWorkflow demoStore "W" "C" 7).2.approvals
      = demoStore.approvals ++ [("C", ⟨"W", "C", true, 7⟩)]
    ∧ (approveWorkflow demoStore "W" "C" 7).2.workflows = demoStore.workflows := by
  have h := claim_C9 demoStore "W" "C" 7 (by decide)
  exact ⟨h.1, h.2.1, h.2.2.1⟩

/-! ### C8 — create-workflow validation -/

/-- C8 counterexample: `create` does not reject an empty collaborator list
(the truthiness check passes for `[]`), and does not reject a `workflow_id`
that already exists for the creator — a second create of `W` for `A` succeeds
even though `getWorkflow` already finds `W` for `A`. -/
theorem claim_C8_counterexample :
    (createWorkflow emptyStore "W" "A" (some []) 0).1
      = CreateResult.ok "W" WorkflowStatus.PENDING_APPROVAL
    ∧ (BigQueryService.getWorkflow
        ((createWorkflow emptyStore "W" "A" (some ["B"]) 0).2) "W" "A").isSome = true
    ∧ (createWorkflow ((createWorkflow emptyStore "W" "A" (some ["B"]) 0).2)
        "W" "A" (some ["C"]) 1).1
      = CreateResult.ok "W" WorkflowStatus.PENDING_APPROVAL := by
  decide

/-- C8 (amended): `create` fails with `InvalidArgument` (HTTP 400) iff
`workflow_id` or `creator` is the empty string or the `collaborators` field is
absent — an empty collaborator list passes, and no already-exists check is
performed on `workflowId`; otherwise it persists exactly one new Workflow with
status `PENDING_APPROVAL` and the deployment-fixed `workloadRef` (not taken
from caller input) and returns the workflow id and status. -/
theorem claim_C8_amended (s : Store) (workflow_id creator : String)
    (collaborators : Option (List String)) (now : Nat) :
    ((createWorkflow s workflow_id creator collaborators now).1
        = CreateResult.invalidArgument
            "Missing required fields: workflow_id, creator, collaborators"
      ↔ workflow_id = "" ∨ creator = "" ∨ collaborators = none)
    ∧ CreateResult.httpStatus
        (CreateResult.invalidArgument
          "Missing required fields: workflow_id, creator, collaborators") = 400
    ∧ (∀ cs, collaborators = some cs → workflow_id ≠ "" → creator ≠ "" →
        (createWorkflow s workflow_id creator collaborators now).1
          = CreateResult.ok workflow_id WorkflowStatus.PENDING_APPROVAL
        ∧ (createWorkflow s workflow_id creator collaborators now).2.workflows
          = s.workflows ++ [(creator,
              ⟨workflow_id, creator, cs, fixedWorkloadPath,
               WorkflowStatus.PENDING_APPROVAL, now, none⟩)]
        ∧ (createWorkflow s workflow_id creator collaborators now).2.approvals
          = s.approvals
        ∧ (createWorkflow s workflow_id creator collaborators now).2.datasets
          = s.datasets
        ∧ (createWorkflow s workflow_id creator collaborators now).2.keys
          = s.keys
        ∧ (createWorkflow s workflow_id creator collaborators now).2.results
          = s.results) := by
  refine ⟨?_, rfl, ?_⟩
  · constructor
    · intro h
      by_contra hng
      push_neg at hng
      obtain ⟨h1, h2, h3⟩ := hng
      obtain ⟨cs, rfl⟩ := Option.ne_none_iff_exists'.mp h3
      have hg : (workflow_id == "" || creator == ""
          || (Option.some cs).isNone) = false := by
        simp [h1, h2]
      simp [createWorkflow, hg, h1, h2] at h
    · intro h
      have hg : (workflow_id == "" || creator == "" || collaborators.isNone) = true := by
        rcases h with h | h | h <;> simp [h]
      simp [createWorkflow, hg]
  · intro cs hcs hw hc
    have hg : (workflow_id == "" || creator == "" || collaborators.isNone) = false := by
      simp [hcs, hw, hc]
    simp [createWorkflow, hg, BigQueryService.createWorkflow, hcs, hw, hc]

/-! ### C2 — the status lifecycle -/

/-- C2 counterexample: the status transition set is not respected across
operation sequences. On a reachable store, a first successful run leaves
workflow `W` at `COMPLETED`; a second run request is accepted again and — via
the unconditional status update it performs — moves the workflow back to
`RUNNING` and then (its executor failing) to `FAILED`: a `COMPLETED` workflow
is resurrected. -/
theorem claim_C2_counterexample :
    statusOf (runWorkflow demoStore "W" "A" ["B"] demoExecOk demoUuid false
        4).store "W" "A" = some WorkflowStatus.COMPLETED
    ∧ statusOf (BigQueryService.updateWorkflowStatus
        (runWorkflow demoStore "W" "A" ["B"] demoExecOk demoUuid false 4).store
        "W" "A" WorkflowStatus.RUNNING 5) "W" "A" = some WorkflowStatus.RUNNING
    ∧ statusOf (runWorkflow
        (runWorkflow demoStore "W" "A" ["B"] demoExecOk demoUuid false 4).store
        "W" "A" ["B"] demoExecFail demoUuid false 5).store "W" "A"
      = some WorkflowStatus.FAILED := by
  decide

/-- C2 (amended): within a single run invocation the status moves forward —
a pre-flight failure (`InvalidArgument`, `NotApproved`, `NotFound`) leaves
the store untouched, `NoDatasets` leaves the workflow at `RUNNING`, success
ends at `COMPLETED` and executor failure at `FAILED` — but the status update
is unconditional, so a later run request may move an already `COMPLETED` or
`FAILED` workflow back to `RUNNING` (and on to `COMPLETED`/`FAILED` again):
forward-only holds per invocation, not across the operation sequence. -/
theorem claim_C2_amended (s : Store) (workflow_id creator : String)
    (collaborators : List String) (exec : ExecuteRequest → ExecutorOutcome)
    (uuid : Nat → String) (modelExists : Bool) (now : Nat) :
    (∀ e, (runWorkflow s workflow_id creator collaborators exec uuid modelExists
        now).res = RunResult.invalidArgument e →
      (runWorkflow s workflow_id creator collaborators exec uuid modelExists
        now).store = s)
    ∧ (∀ e, (runWorkflow s workflow_id creator collaborators exec uuid
        modelExists now).res = RunResult.notApproved e →
      (runWorkflow s workflow_id creator collaborators exec uuid modelExists
        now).store = s)
    ∧ (∀ e, (runWorkflow s workflow_id creator collaborators exec uuid
        modelExists now).res = RunResult.notFound e →
      (runWorkflow s workflow_id creator collaborators exec uuid modelExists
        now).store = s)
    ∧ (∀ e, (runWorkflow s workflow_id creator collaborators exec uuid
        modelExists now).res = RunResult.noDatasets e →
      statusOf (runWorkflow s workflow_id creator collaborators exec uuid
        modelExists now).store workflow_id creator
        = some WorkflowStatus.RUNNING)
    ∧ (∀ a b c, (runWorkflow s workflow_id creator collaborators exec uuid
        modelExists now).res = RunResult.completed a b c →
      statusOf (runWorkflow s workflow_id creator collaborators exec uuid
        modelExists now).store workflow_id creator
        = some WorkflowStatus.COMPLETED)
    ∧ (∀ e m, (runWorkflow s workflow_id creator collaborators exec uuid
        modelExists now).res = RunResult.executorFailed e m →
      statusOf (runWorkflow s workflow_id creator collaborators exec uuid
        modelExists now).store workflow_id creator
        = some WorkflowStatus.FAILED) := by
  by_cases hb : creator = ""
  · have hbt : (creator == "") = true := by simp [hb]
    have hrun : runWorkflow s workflow_id creator collaborators exec uuid
        modelExists now
        = ⟨.invalidArgument "creator and collaborators parameters are required",
           s, []⟩ := by
      simp [runWorkflow, hbt]
    rw [hrun]
    exact ⟨fun e _ => rfl,
      fun e he => absurd he (by simp),
      fun e he => absurd he (by simp),
      fun e he => absurd he (by simp),
      fun a b c he => absurd he (by simp),
      fun e m he => absurd he (by simp)⟩
  · have hbf : (creator == "") = false := by simp [hb]
    cases hfa : firstUnapproved s workflow_id collaborators with
    | some c =>
      rw [runWorkflow_notApproved_branch hbf hfa]
      exact ⟨fun e he => absurd he (by simp),
        fun e _ => rfl,
        fun e he => absurd he (by simp),
        fun e he => absurd he (by simp),
        fun a b c he => absurd he (by simp),
        fun e m he => absurd he (by simp)⟩
    | none =>
      cases hgw : BigQueryService.getWorkflow s workflow_id creator with
      | none =>
        rw [runWorkflow_notFound_branch hbf hfa hgw]
        exact ⟨fun e he => absurd he (by simp),
          fun e he => absurd he (by simp),
          fun e _ => rfl,
          fun e he => absurd he (by simp),
          fun a b c he => absurd he (by simp),
          fun e m he => absurd he (by simp)⟩
      | some w =>
        by_cases h3 : assembleDatasets s workflow_id creator collaborators = []
        · rw [runWorkflow_noDatasets_branch hbf hfa hgw h3]
          exact ⟨fun e he => absurd he (by simp),
            fun e he => absurd he (by simp),
            fun e he => absurd he (by simp),
            fun e _ => statusOf_update_of_found .RUNNING now hgw,
            fun a b c he => absurd he (by simp),
            fun e m he => absurd he (by simp)⟩
        · cases h4 : exec (buildExecPayload workflow_id w.workload_path
              (assembleDatasets s workflow_id creator collaborators)) with
          | failure msg =>
            rw [runWorkflow_failure_branch hbf hfa hgw h3 h4]
            have hgw1 : BigQueryService.getWorkflow
                (BigQueryService.updateWorkflowStatus s workflow_id creator
                  .RUNNING now) workflow_id creator
                = some { w with status := .RUNNING, updated_at := some now } := by
              rw [getWorkflow_updateWorkflowStatus, hgw]
              rfl
            exact ⟨fun e he => absurd he (by simp),
              fun e he => absurd he (by simp),
              fun e he => absurd he (by simp),
              fun e he => absurd he (by simp),
              fun a b c he => absurd he (by simp),
              fun e m _ => statusOf_update_of_found .FAILED now hgw1⟩
          | success ps ep =>
            rw [runWorkflow_success_branch hbf hfa hgw h3 h4]
            have hgw1 : BigQueryService.getWorkflow
                (BigQueryService.updateWorkflowStatus s workflow_id creator
                  .RUNNING now) workflow_id creator
                = some { w with status := .RUNNING, updated_at := some now } := by
              rw [getWorkflow_updateWorkflowStatus, hgw]
              rfl
            have hgw2 : BigQueryService.getWorkflow
                (if (mkRunResults uuid workflow_id ep now ps).length > 0 then
                  BigQueryService.insertResults
                    (BigQueryService.updateWorkflowStatus s workflow_id creator
                      .RUNNING now)
                    (mkRunResults uuid workflow_id ep now ps)
                else
                  BigQueryService.updateWorkflowStatus s workflow_id creator
                    .RUNNING now) workflow_id creator
                = some { w with status := .RUNNING, updated_at := some now } := by
              by_cases hl : (mkRunResults uuid workflow_id ep now ps).length > 0
              · rw [if_pos hl, getWorkflow_insertResults]
                exact hgw1
              · rw [if_neg hl]
                exact hgw1
            exact ⟨fun e he => absurd he (by simp),
              fun e he => absurd he (by simp),
              fun e he => absurd he (by simp),
              fun e he => absurd he (by simp),
              fun a b c _ => statusOf_update_of_found .COMPLETED now hgw2,
              fun e m he => absurd he (by simp)⟩

theorem claim_C2_amended_witness :
    statusOf (runWorkflow demoStoreNoData "W" "A" ["B"] demoExecOk demoUuid
        false 4).store "W" "A" = some WorkflowStatus.RUNNING := by
  exact (claim_C2_amended demoStoreNoData "W" "A" ["B"] demoExecOk demoUuid
    false 4).2.2.2.1 "No datasets found for this workflow" (by decide)

theorem claim_C8_amended_witness :
    (createWorkflow emptyStore "W2" "A" (some ["B"]) 5).1
      = CreateResult.ok "W2" WorkflowStatus.PENDING_APPROVAL
    ∧ (createWorkflow emptyStore "W2" "A" (some ["B"]) 5).2.workflows
      = [("A", ⟨"W2", "A", ["B"], fixedWorkloadPath,
           WorkflowStatus.PENDING_APPROVAL, 5, none⟩)]
    ∧ ((createWorkflow emptyStore "" "A" (some ["B"]) 5).1
        = CreateResult.invalidArgument
            "Missing required fields: workflow_id, creator, collaborators") := by
  have h := claim_C8_amended emptyStore "W2" "A" (some ["B"]) 5
  have h3 := h.2.2 ["B"] rfl (by decide) (by decide)
  refine ⟨h3.1, ?_, ?_⟩
  · have := h3.2.1
    simpa [emptyStore] using this
  · exact (claim_C8_amended emptyStore "" "A" (some ["B"]) 5).1.mpr (Or.inl rfl)

/-! ### C10 — approval rows are always affirmative -/

theorem updateWorkflowStatus_approvals (s : Store) (a b : String)
    (c : WorkflowStatus) (d : Nat) :
    (BigQueryService.updateWorkflowStatus s a b c d).approvals = s.approvals :=
  rfl

theorem insertResults_approvals (s : Store) (rs : List ExecutionResult) :
    (BigQueryService.insertResults s rs).approvals = s.approvals := rfl

theorem createWorkflow_store_approvals (s : Store) (wid c : String)
    (cs : Option (List String)) (now : Nat) :
    (createWorkflow s wid c cs now).2.approvals = s.approvals := by
  unfold createWorkflow
  split
  · rfl
  · rfl

theorem uploadMeta_approvals (s : Store)
    (file_type workflow_id dataset_id filename owner : String) (now : Nat) :
    (uploadMeta s file_type workflow_id dataset_id filename owner now).approvals
      = s.approvals := by
  unfold uploadMeta
  split
  · rfl
  · split
    · rfl
    · split
      · rfl
      · split
        · rfl
        · rfl

theorem runWorkflow_store_approvals (s : Store) (workflow_id creator : String)
    (collaborators : List String) (exec : ExecuteRequest → ExecutorOutcome)
    (uuid : Nat → String) (modelExists : Bool) (now : Nat) :
    (runWorkflow s workflow_id creator collaborators exec uuid modelExists
      now).store.approvals = s.approvals := by
  by_cases hb : creator = ""
  · have hbt : (creator == "") = true := by simp [hb]
    simp [runWorkflow, hbt]
  · have hbf : (creator == "") = false := by simp [hb]
    cases hfa : firstUnapproved s workflow_id collaborators with
    | some c => rw [runWorkflow_notApproved_branch hbf hfa]
    | none =>
      cases hgw : BigQueryService.getWorkflow s workflow_id creator with
      | none => rw [runWorkflow_notFound_branch hbf hfa hgw]
      | some w =>
        by_cases h3 : assembleDatasets s workflow_id creator collaborators = []
        · rw [runWorkflow_noDatasets_branch hbf hfa hgw h3]
          rfl
        · cases h4 : exec (buildExecPayload workflow_id w.workload_path
              (assembleDatasets s workflow_id creator collaborators)) with
          | failure msg =>
            rw [runWorkflow_failure_branch hbf hfa hgw h3 h4]
            rfl
          | success ps ep =>
            rw [runWorkflow_success_branch hbf hfa hgw h3 h4]
            show (if (mkRunResults uuid workflow_id ep now ps).length > 0 then
                BigQueryService.insertResults
                  (BigQueryService.updateWorkflowStatus s workflow_id creator
                    .RUNNING now)
                  (mkRunResults uuid workflow_id ep now ps)
              else
                BigQueryService.updateWorkflowStatus s workflow_id creator
                  .RUNNING now).approvals = s.approvals
            by_cases hl : (mkRunResults uuid workflow_id ep now ps).length > 0
            · rw [if_pos hl]
              rfl
            · rw [if_neg hl]
              rfl

theorem applyOp_approvals (s : Store) (op : Op) (t : Nat) :
    ∃ ext, (applyOp s op t).approvals = s.approvals ++ ext
      ∧ ∀ p ∈ ext, p.2.approved = true := by
  cases op with
  | createOp wid c cs =>
    exact ⟨[], by simp [applyOp, createWorkflow_store_approvals], by simp⟩
  | approveOp wid cl =>
    by_cases hcl : (cl == "") = true
    · exact ⟨[], by simp [applyOp, approveWorkflow, hcl], by simp⟩
    · have hclf : (cl == "") = false := by
        cases hc : (cl == "") with
        | true => exact absurd hc hcl
        | false => rfl
      refine ⟨[(cl, ⟨wid, cl, true, t⟩)], ?_, ?_⟩
      · simp [applyOp, approveWorkflow, hclf, BigQueryService.approveWorkflow]
      · intro p hp
        rw [List.mem_singleton] at hp
        subst hp
        rfl
  | runOp wid c cols exec uuid mE =>
    exact ⟨[], by simp [applyOp, runWorkflow_store_approvals], by simp⟩
  | uploadOp ft wid did fn ow =>
    exact ⟨[], by simp [applyOp, uploadMeta_approvals], by simp⟩

theorem applyOps_approvals (trace : List (Op × Nat)) :
    ∀ s : Store, ∃ ext, (applyOps s trace).approvals = s.approvals ++ ext
      ∧ ∀ p ∈ ext, p.2.approved = true := by
  induction trace with
  | nil => intro s; exact ⟨[], by simp [applyOps], by simp⟩
  | cons ot rest ih =>
    intro s
    obtain ⟨op, t⟩ := ot
    obtain ⟨e1, he1, ha1⟩ := applyOp_approvals s op t
    obtain ⟨e2, he2, ha2⟩ := ih (applyOp s op t)
    refine ⟨e1 ++ e2, ?_, ?_⟩
    · show (applyOps (applyOp s op t) rest).approvals = _
      rw [he2, he1, List.append_assoc]
    · intro p hp
      rcases List.mem_append.mp hp with h | h
      · exact ha1 p h
      · exact ha2 p h

theorem applyOps_append (l1 l2 : List (Op × Nat)) :
    ∀ s : Store, applyOps s (l1 ++ l2) = applyOps (applyOps s l1) l2 := by
  induction l1 with
  | nil => intro s; rfl
  | cons ot rest ih =>
    intro s
    obtain ⟨op, t⟩ := ot
    show applyOps (applyOp s op t) (rest ++ l2) = _
    exact ih (applyOp s op t)

theorem mem_approvals_applyOps (s : Store) (trace : List (Op × Nat))
    (p : String × WorkflowApproval) (hp : p ∈ s.approvals) :
    p ∈ (applyOps s trace).approvals := by
  obtain ⟨ext, he, _⟩ := applyOps_approvals trace s
  rw [he]
  exact List.mem_append_left ext hp

theorem mem_approvalRows_of (s : Store) (workflowId clientId : String)
    (a : WorkflowApproval) (h : (clientId, a) ∈ s.approvals)
    (hw : a.workflow_id = workflowId) :
    a ∈ BigQueryService.approvalRows s workflowId clientId := by
  simp only [BigQueryService.approvalRows, List.mem_map, List.mem_filter]
  exact ⟨(clientId, a), ⟨h, by simp [hw]⟩, rfl⟩

theorem approvalRows_sub (s : Store) (workflowId clientId : String)
    (x : WorkflowApproval)
    (hx : x ∈ BigQueryService.approvalRows s workflowId clientId) :
    ∃ p ∈ s.approvals, p.2 = x := by
  simp only [BigQueryService.approvalRows, List.mem_map, List.mem_filter] at hx
  obtain ⟨p, ⟨hp, _⟩, rfl⟩ := hx
  exact ⟨p, hp, rfl⟩

theorem isWorkflowApprovedOk_true_of (s : Store) (workflowId clientId : String)
    (a : WorkflowApproval)
    (ha : a ∈ BigQueryService.approvalRows s workflowId clientId)
    (hall : ∀ x ∈ BigQueryService.approvalRows s workflowId clientId,
      x.approved = true) :
    BigQueryService.isWorkflowApprovedOk s workflowId clientId = true := by
  unfold BigQueryService.isWorkflowApprovedOk
  cases hs : sortDescBy (fun x : WorkflowApproval => x.approved_at)
      (BigQueryService.approvalRows s workflowId clientId) with
  | nil =>
    have hnil := (sortDescBy_eq_nil_iff
      (fun x : WorkflowApproval => x.approved_at) _).mp hs
    rw [hnil] at ha
    cases ha
  | cons r rest =>
    have hr : r ∈ BigQueryService.approvalRows s workflowId clientId := by
      have hmem : r ∈ sortDescBy (fun x : WorkflowApproval => x.approved_at)
          (BigQueryService.approvalRows s workflowId clientId) := by
        rw [hs]
        exact List.mem_cons_self r rest
      exact (mem_sortDescBy _ r _).mp hmem
    exact hall r hr

/-- C10: every Approval row the system can ever write is affirmative — from
the empty store, after any sequence of public operations, every approval row
has `approved = true` (the approve endpoint hard-codes the flag and no other
operation writes approvals) — and therefore once a party has approved a
workflow, the approval check returns `true` after every subsequent sequence
of public operations: a negative latest approval is unreachable through the
public interface. -/
theorem claim_C10 :
    (∀ trace : List (Op × Nat),
        ∀ p ∈ (applyOps emptyStore trace).approvals, p.2.approved = true)
    ∧ (∀ (pre post : List (Op × Nat)) (workflowId clientId : String) (t : Nat),
        clientId ≠ "" →
        BigQueryService.isWorkflowApproved
          (applyOps emptyStore
            (pre ++ (Op.approveOp workflowId clientId, t) :: post))
          workflowId clientId false = true) := by
  have hall : ∀ trace : List (Op × Nat),
      ∀ p ∈ (applyOps emptyStore trace).approvals, p.2.approved = true := by
    intro trace p hp
    obtain ⟨ext, he, ha⟩ := applyOps_approvals trace emptyStore
    rw [he] at hp
    rw [show emptyStore.approvals = [] from rfl, List.nil_append] at hp
    exact ha p hp
  refine ⟨hall, ?_⟩
  intro pre post workflowId clientId t hcl
  have hclb : (clientId == "") = false := by simp [hcl]
  have happ : applyOps emptyStore
      (pre ++ (Op.approveOp workflowId clientId, t) :: post)
      = applyOps (applyOp (applyOps emptyStore pre)
          (Op.approveOp workflowId clientId) t) post := by
    rw [applyOps_append]
    rfl
  have hrowmem : (clientId, (⟨workflowId, clientId, true, t⟩ : WorkflowApproval))
      ∈ (applyOp (applyOps emptyStore pre)
          (Op.approveOp workflowId clientId) t).approvals := by
    show (clientId, _) ∈ (approveWorkflow (applyOps emptyStore pre) workflowId
      clientId t).2.approvals
    simp [approveWorkflow, hclb, BigQueryService.approveWorkflow]
  have hrowfin : (clientId, (⟨workflowId, clientId, true, t⟩ : WorkflowApproval))
      ∈ (applyOps emptyStore
          (pre ++ (Op.approveOp workflowId clientId, t) :: post)).approvals := by
    rw [happ]
    exact mem_approvals_applyOps _ post _ hrowmem
  have hrows : (⟨workflowId, clientId, true, t⟩ : WorkflowApproval)
      ∈ BigQueryService.approvalRows
          (applyOps emptyStore
            (pre ++ (Op.approveOp workflowId clientId, t) :: post))
          workflowId clientId :=
    mem_approvalRows_of _ workflowId clientId _ hrowfin rfl
  have hallrows : ∀ x ∈ BigQueryService.approvalRows
      (applyOps emptyStore
        (pre ++ (Op.approveOp workflowId clientId, t) :: post))
      workflowId clientId, x.approved = true := by
    intro x hx
    obtain ⟨p, hp, hpx⟩ := approvalRows_sub _ workflowId clientId x hx
    rw [← hpx]
    exact hall _ p hp
  show BigQueryService.isWorkflowApproved _ workflowId clientId false = true
  unfold BigQueryService.isWorkflowApproved
  rw [if_neg (by simp)]
  exact isWorkflowApprovedOk_true_of _ workflowId clientId _ hrows hallrows

theorem claim_C10_witness :
    BigQueryService.isWorkflowApproved
      (applyOps emptyStore
        ([] ++ (Op.approveOp "W" "B", 0) :: [])) "W" "B" false = true
    ∧ (("B", (⟨"W", "B", true, 0⟩ : WorkflowApproval)) :
        String × WorkflowApproval).2.approved = true := by
  refine ⟨claim_C10.2 [] [] "W" "B" 0 (by decide), ?_⟩
  exact claim_C10.1 [(Op.approveOp "W" "B", 0)]
    ("B", ⟨"W", "B", true, 0⟩) (by decide)

end CleanRoom
